import Mathlib

/-!
Shallow embedding of `src/ai_model_generator.py` (Blender add-on "AI Model
Generator") and proofs about its specification claims.

The add-on is a single Python file.  The parts relevant to the claims are:
  * the per-provider API calls (`call_gemini_api`, `call_groq_api`,
    `call_openai_api`, `call_anthropic_api`, `call_custom_api`) of the
    operator class `AIGEN_OT_generate`,
  * the markdown-fence postprocessing that all four named providers apply
    to the text payload,
  * the dispatching `call_api` with its catch-all exception handler,
  * the operator `execute` method and `execute_script` / `clear_scene`.

Python strings are modelled as Lean `String`s manipulated through their
character lists; Python `str.split` / slicing / `strip` are re-implemented
below with the exact Python semantics that the source relies on.  JSON
values are modelled by an inductive `Json` type, and the Python dynamic
typing of the response-navigation code (`result[candidates][0]` and so
on, which can raise `KeyError` / `IndexError` / `TypeError` at runtime) is
modelled by computations in `Except String` whose `error` case is a raised
Python exception carrying `str(e)`.

The network is modelled by an `HttpResponse` value (status code plus
parsed body) handed to each call: it stands for what `requests.post`
would return if the request were issued, and every call records in
`httpIssued` whether it reached its `requests.post` line (the code never
retries, so a `Bool` suffices: each call issues at most one request).
-/

set_option autoImplicit false

namespace AIModelGenerator

/-! ### Python string primitives over character lists -/

/-- Whitespace characters stripped by Python `str.strip()` (ASCII part;
the source only ever strips prompts, API keys and generated scripts). -/
def pyIsSpace (c : Char) : Bool :=
  c = ' ' || c = '\t' || c = '\n' || c = '\r' || c = '\x0b' || c = '\x0c'

/-- Python `str.strip()` on a character list. -/
def stripChars (l : List Char) : List Char :=
  ((l.dropWhile pyIsSpace).reverse.dropWhile pyIsSpace).reverse

/-- Python `str.strip()`. -/
def pyStrip (s : String) : String :=
  String.mk (stripChars s.data)

/-- Python `str.startswith`. -/
def pyStartsWith (s pre : String) : Bool :=
  pre.data.isPrefixOf s.data

/-- Characters of `l` before the first occurrence of `sep` (all of `l`
when `sep` does not occur).  This is `l.split(sep)[0]` for a nonempty
`sep`, and also the chunk that Python split scanning produces between
two separator occurrences. -/
def takeUntil (sep : List Char) : List Char → List Char
  | [] => []
  | c :: cs => if sep.isPrefixOf (c :: cs) then [] else c :: takeUntil sep cs

/-- Characters of `l` after the first occurrence of `sep`; `none` when
`sep` does not occur (for nonempty `sep`). -/
def dropAfter? (sep : List Char) : List Char → Option (List Char)
  | [] => none
  | c :: cs =>
    if sep.isPrefixOf (c :: cs) then some ((c :: cs).drop sep.length)
    else dropAfter? sep cs

/-- Whether `sep` occurs as a contiguous run inside `l`. -/
def hasInfix (sep : List Char) : List Char → Bool
  | [] => sep.isEmpty
  | c :: cs => sep.isPrefixOf (c :: cs) || hasInfix sep cs

/-- Python `s.split(sep)[0]` for nonempty `sep` (total: the chunk before
the first separator occurrence, or all of `s`). -/
def splitHead (s sep : String) : String :=
  String.mk (takeUntil sep.data s.data)

/-- Python `s.split(sep)[1]` for nonempty `sep`: the chunk between the
first and the second (non-overlapping, scanned left to right) occurrence
of `sep`; `none` when `sep` does not occur, in which case the Python
indexing would raise `IndexError`.  The source only evaluates it under a
`startswith` guard that makes it defined. -/
def splitSnd? (s sep : String) : Option String :=
  (dropAfter? sep.data s.data).map (fun r => String.mk (takeUntil sep.data r))

/-- Python `s[:n]` (slice of the first `n` characters). -/
def pyTake (s : String) (n : Nat) : String :=
  String.mk (s.data.take n)

/-!
### Markdown-fence postprocessing

All four named providers run the identical inline block (source lines
232–238, 338–344, 457–463, 578–584):

    if content.startswith(```python):
        content = content.split(```python)[1].split(```)[0]
    elif content.startswith(```):
        content = content.split(```)[1].split(```)[0]
    cleaned_content = content.strip()
-/

/-- Fence postprocessing exactly as written in the source.  The `getD ""`
defaults are unreachable: under each `startswith` guard the separator
occurs, so `splitSnd?` is `some`. -/
def cleanContent (content : String) : String :=
  let c :=
    if pyStartsWith content "```python" then
      splitHead ((splitSnd? content "```python").getD "") "```"
    else if pyStartsWith content "```" then
      splitHead ((splitSnd? content "```").getD "") "```"
    else content
  pyStrip c

/-- Spec-side postprocessing, following the specification text: "if the
text starts with a fenced-code marker, take the substring between the
first pair of fence markers; otherwise use the text verbatim; trim
surrounding whitespace".  The opening marker is the longer recognised
marker when present, and the closing marker is the first subsequent
occurrence of a fence. -/
def cleanContentSpec (content : String) : String :=
  if pyStartsWith content "```python" then
    pyStrip (String.mk (takeUntil "```".data (content.data.drop 9)))
  else if pyStartsWith content "```" then
    pyStrip (String.mk (takeUntil "```".data (content.data.drop 3)))
  else
    pyStrip content

/-- Amended description of the source postprocessing.  For a text that
starts with the plain marker this coincides with `cleanContentSpec`; for
a text that starts with the `python`-tagged marker the remainder is first
cut at its next occurrence of the tagged marker (an artifact of Pythons
`split(```python)[1]`) and only then cut at the first plain fence. -/
def cleanContentAmended (content : String) : String :=
  if pyStartsWith content "```python" then
    pyStrip (String.mk (takeUntil "```".data
      (takeUntil "```python".data (content.data.drop 9))))
  else if pyStartsWith content "```" then
    pyStrip (String.mk (takeUntil "```".data (content.data.drop 3)))
  else
    pyStrip content

/-! ### JSON values and Python dynamic-access semantics -/

/-- Parsed JSON values, as produced by `response.json()`. -/
inductive Json where
  | null
  | bool (b : Bool)
  | num (n : Int)
  | str (s : String)
  | arr (elems : List Json)
  | obj (fields : List (String × Json))

/-- Computations that may raise a Python exception; the payload is
`str(e)` of the raised exception. -/
abbrev Py (α : Type) := Except String α

mutual
/-- Python `str()` / `repr()` of a parsed JSON value, used when the code
interpolates a non-string value into an f-string (approximate: string
escaping inside containers is not reproduced; the claims never reach
these renderings). -/
def jsonPyStr : Json → String
  | .null => "None"
  | .bool true => "True"
  | .bool false => "False"
  | .num n => toString n
  | .str s => s
  | .arr l => "[" ++ jsonPyStrList l ++ "]"
  | .obj fs => "\x7b" ++ jsonPyStrFields fs ++ "\x7d"

/-- Comma-separated reprs of list elements. -/
def jsonPyStrList : List Json → String
  | [] => ""
  | [x] => jsonPyRepr x
  | x :: xs => jsonPyRepr x ++ ", " ++ jsonPyStrList xs

/-- Comma-separated reprs of dict entries. -/
def jsonPyStrFields : List (String × Json) → String
  | [] => ""
  | [(k, v)] => "\x27" ++ k ++ "\x27: " ++ jsonPyRepr v
  | (k, v) :: xs => "\x27" ++ k ++ "\x27: " ++ jsonPyRepr v ++ ", " ++ jsonPyStrFields xs

/-- Python `repr()` (strings get quotes, containers recurse). -/
def jsonPyRepr : Json → String
  | .str s => "\x27" ++ s ++ "\x27"
  | .null => "None"
  | .bool true => "True"
  | .bool false => "False"
  | .num n => toString n
  | .arr l => "[" ++ jsonPyStrList l ++ "]"
  | .obj fs => "\x7b" ++ jsonPyStrFields fs ++ "\x7d"
end

/-- Python type name of a parsed JSON value, as it appears in
`AttributeError` messages. -/
def pyTypeName : Json → String
  | .null => "NoneType"
  | .bool _ => "bool"
  | .num _ => "int"
  | .str _ => "str"
  | .arr _ => "list"
  | .obj _ => "dict"

/-- Python `key in j` for a string key: dict key membership, list element
membership, substring test for strings; `TypeError` otherwise. -/
def pyIn (j : Json) (key : String) : Py Bool :=
  match j with
  | .obj fields => .ok (fields.any (fun f => f.1 = key))
  | .arr elems =>
    .ok (elems.any (fun e => match e with | .str s => s = key | _ => false))
  | .str s => .ok (hasInfix key.data s.data)
  | _ => .error "argument of type is not iterable"

/-- Python `j[key]` for a string key: dict lookup (`KeyError`, whose
`str()` is the quoted key, when absent); `TypeError` on other values. -/
def pyGetKey (j : Json) (key : String) : Py Json :=
  match j with
  | .obj fields =>
    match fields.find? (fun f => f.1 = key) with
    | some f => .ok f.2
    | none => .error ("\x27" ++ key ++ "\x27")
  | .str _ => .error "string indices must be integers"
  | .arr _ => .error "list indices must be integers or slices, not str"
  | _ => .error "object is not subscriptable"

/-- Python `len(j)`: length of a list, string or dict; `TypeError`
otherwise. -/
def pyLen (j : Json) : Py Nat :=
  match j with
  | .arr l => .ok l.length
  | .str s => .ok s.length
  | .obj fields => .ok fields.length
  | _ => .error "object has no len()"

/-- Python `j[0]`: head of a list (`IndexError` on an empty one), first
character of a string, `KeyError` on a dict, `TypeError` otherwise. -/
def pyIdx0 (j : Json) : Py Json :=
  match j with
  | .arr (x :: _) => .ok x
  | .arr [] => .error "list index out of range"
  | .str s =>
    match s.data with
    | c :: _ => .ok (.str (String.mk [c]))
    | [] => .error "string index out of range"
  | .obj _ => .error "0"
  | _ => .error "object is not subscriptable"

/-- Python `j.get(key, dflt)`: dict `get`; `AttributeError` when `j` is
not a dict. -/
def pyDictGet (j : Json) (key : String) (dflt : Json) : Py Json :=
  match j with
  | .obj fields =>
    match fields.find? (fun f => f.1 = key) with
    | some f => .ok f.2
    | none => .ok dflt
  | _ => .error ("\x27" ++ pyTypeName j ++ "\x27 object has no attribute \x27get\x27")

/-- Assertion that a value is a string before a string method such as
`startswith` is called on it; `AttributeError` otherwise. -/
def pyAttrStr (j : Json) : Py String :=
  match j with
  | .str s => .ok s
  | _ => .error ("\x27" ++ pyTypeName j ++ "\x27 object has no attribute \x27startswith\x27")

/-- Python truthiness of a parsed JSON value. -/
def pyTruthy (j : Json) : Bool :=
  match j with
  | .null => false
  | .bool b => b
  | .num n => n ≠ 0
  | .str s => s ≠ ""
  | .arr l => !l.isEmpty
  | .obj fields => !fields.isEmpty

/-! ### Settings, network model and provider calls -/

/-- The `api_provider` enum of `AIGenProperties` (source lines 29–40). -/
inductive ApiProvider where
  | GEMINI
  | GROQ
  | OPENAI
  | ANTHROPIC
  | CUSTOM
deriving DecidableEq

/-- The settings bag `AIGenProperties` (source lines 21–99), with the
source default values.  The model-choice enums are carried as the
strings they would contribute to request bodies. -/
structure AIGenProperties where
  prompt : String := "Create a simple cube"
  api_provider : ApiProvider := .GEMINI
  groq_model : String := "llama-3.3-70b-versatile"
  openai_model : String := "gpt-4.1-mini"
  anthropic_model : String := "claude-sonnet-4-20250514"
  api_url : String := "http://localhost:8000/generate"
  api_key : String := ""
  auto_clear : Bool := true

/-- What `requests.post` returns when a request is issued: the HTTP
status code and the parsed JSON body (`none` when the body is empty or
unparseable, in which case `response.json()` raises and an empty
`response.text` skips the non-200 message refinement). -/
structure HttpResponse where
  status : Nat
  body : Option Json

/-- Outcome of one provider-call method: the returned value (`ok none`
models `return None`, `ok (some j)` a returned payload, `error e` an
exception escaping the method), the `self.report({ERROR}, …)` messages
issued inside it, and whether its `requests.post` line was reached. -/
structure ApiCallResult where
  result : Py (Option Json)
  reports : List String
  httpIssued : Bool

/-- Non-200 message refinement shared by Gemini and Groq (source lines
251–264 and 597–610): start from `"<name> API Error: <status>"` and, when
the body parses to a dict with an `error` entry, append that entrys
`message`; every exception in the refinement is swallowed by the bare
`except: pass`. -/
def simpleNon200Msg (name : String) (net : HttpResponse) : String :=
  let base := name ++ " API Error: " ++ toString net.status
  match net.body with
  | none => base
  | some j =>
    match pyIn j "error" with
    | .error _ => base
    | .ok false => base
    | .ok true =>
      match pyGetKey j "error" with
      | .error _ => base
      | .ok ej =>
        match pyDictGet ej "message" (.str "") with
        | .error _ => base
        | .ok m => base ++ " - " ++ jsonPyStr m

/-- Non-200 message refinement of `call_openai_api` (source lines
476–500): known `error.type` values get dedicated messages. -/
def openaiNon200Msg (net : HttpResponse) : String :=
  let base := "OpenAI API Error: " ++ toString net.status
  match net.body with
  | none => base
  | some j =>
    match pyIn j "error" with
    | .error _ => base
    | .ok false => base
    | .ok true =>
      match pyGetKey j "error" with
      | .error _ => base
      | .ok ej =>
        match pyDictGet ej "type" (.str "") with
        | .error _ => base
        | .ok ty =>
          match pyDictGet ej "message" (.str "") with
          | .error _ => base
          | .ok msg =>
            match ty with
            | .str "insufficient_quota" =>
              "OpenAI quota exceeded. Please add credits at platform.openai.com/billing"
            | .str "invalid_api_key" =>
              "Invalid OpenAI API key. Check your key at platform.openai.com/api-keys"
            | _ => base ++ " - " ++ jsonPyStr msg

/-- Non-200 message refinement of `call_anthropic_api` (source lines
357–381). -/
def anthropicNon200Msg (net : HttpResponse) : String :=
  let base := "Anthropic API Error: " ++ toString net.status
  match net.body with
  | none => base
  | some j =>
    match pyIn j "error" with
    | .error _ => base
    | .ok false => base
    | .ok true =>
      match pyGetKey j "error" with
      | .error _ => base
      | .ok ej =>
        match pyDictGet ej "type" (.str "") with
        | .error _ => base
        | .ok ty =>
          match pyDictGet ej "message" (.str "") with
          | .error _ => base
          | .ok msg =>
            match ty with
            | .str "authentication_error" =>
              "Invalid Anthropic API key. Check your key at console.anthropic.com"
            | .str "permission_error" =>
              "Anthropic API permission denied. Check your account access"
            | _ => base ++ " - " ++ jsonPyStr msg

/-- Extraction from a Gemini 200 response (source lines 218–250):
`result[candidates][0][content][parts][0][text]`, guarded by
`candidates in result and len(result[candidates]) > 0` and by
`content in candidate and parts in candidate[content]`; the
unguarded inner accesses can raise. -/
def gemini200 (result : Json) : Py (Option Json × List String) :=
  match pyIn result "candidates" with
  | .error e => .error e
  | .ok false => .ok (none, ["No content generated by Gemini"])
  | .ok true =>
    match pyGetKey result "candidates" with
    | .error e => .error e
    | .ok cands =>
      match pyLen cands with
      | .error e => .error e
      | .ok n =>
        if n > 0 then
          match pyIdx0 cands with
          | .error e => .error e
          | .ok candidate =>
            match pyIn candidate "content" with
            | .error e => .error e
            | .ok false => .ok (none, ["Invalid response structure from Gemini"])
            | .ok true =>
              match pyGetKey candidate "content" with
              | .error e => .error e
              | .ok contentJ =>
                match pyIn contentJ "parts" with
                | .error e => .error e
                | .ok false => .ok (none, ["Invalid response structure from Gemini"])
                | .ok true =>
                  match pyGetKey contentJ "parts" with
                  | .error e => .error e
                  | .ok parts =>
                    match pyIdx0 parts with
                    | .error e => .error e
                    | .ok p0 =>
                      match pyGetKey p0 "text" with
                      | .error e => .error e
                      | .ok t =>
                        match pyAttrStr t with
                        | .error e => .error e
                        | .ok content => .ok (some (.str (cleanContent content)), [])
        else .ok (none, ["No content generated by Gemini"])

/-- Extraction from an Anthropic 200 response (source lines 324–356):
`result[content][0][text]`, guarded by `content in result and
len(result[content]) > 0` and `text in content_block`. -/
def anthropic200 (result : Json) : Py (Option Json × List String) :=
  match pyIn result "content" with
  | .error e => .error e
  | .ok false => .ok (none, ["No content generated by Anthropic"])
  | .ok true =>
    match pyGetKey result "content" with
    | .error e => .error e
    | .ok blocks =>
      match pyLen blocks with
      | .error e => .error e
      | .ok n =>
        if n > 0 then
          match pyIdx0 blocks with
          | .error e => .error e
          | .ok block =>
            match pyIn block "text" with
            | .error e => .error e
            | .ok false => .ok (none, ["Invalid response structure from Anthropic"])
            | .ok true =>
              match pyGetKey block "text" with
              | .error e => .error e
              | .ok t =>
                match pyAttrStr t with
                | .error e => .error e
                | .ok content => .ok (some (.str (cleanContent content)), [])
        else .ok (none, ["No content generated by Anthropic"])

/-- Extraction from an OpenAI-shaped 200 response, shared verbatim by
`call_openai_api` (source lines 443–475) and `call_groq_api` (source
lines 564–596) up to the provider name in the messages:
`result[choices][0][message][content]`, guarded by `choices in
result and len(result[choices]) > 0` and `message in choice and
content in choice[message]`. -/
def chat200 (name : String) (result : Json) : Py (Option Json × List String) :=
  match pyIn result "choices" with
  | .error e => .error e
  | .ok false => .ok (none, ["No content generated by " ++ name])
  | .ok true =>
    match pyGetKey result "choices" with
    | .error e => .error e
    | .ok choices =>
      match pyLen choices with
      | .error e => .error e
      | .ok n =>
        if n > 0 then
          match pyIdx0 choices with
          | .error e => .error e
          | .ok choice =>
            match pyIn choice "message" with
            | .error e => .error e
            | .ok false => .ok (none, ["Invalid response structure from " ++ name])
            | .ok true =>
              match pyGetKey choice "message" with
              | .error e => .error e
              | .ok msg =>
                match pyIn msg "content" with
                | .error e => .error e
                | .ok false => .ok (none, ["Invalid response structure from " ++ name])
                | .ok true =>
                  match pyGetKey msg "content" with
                  | .error e => .error e
                  | .ok c =>
                    match pyAttrStr c with
                    | .error e => .error e
                    | .ok content => .ok (some (.str (cleanContent content)), [])
        else .ok (none, ["No content generated by " ++ name])

namespace AIGEN_OT_generate

/-- Body of `call_gemini_api` (source lines 161–265). -/
def call_gemini_api (props : AIGenProperties) (net : HttpResponse) : ApiCallResult :=
  if pyStrip props.api_key = "" then
    ⟨.ok none, ["Please enter your Gemini API key"], false⟩
  else if net.status = 200 then
    match net.body with
    | none => ⟨.error "Expecting value: line 1 column 1 (char 0)", [], true⟩
    | some result =>
      match gemini200 result with
      | .ok (r, reps) => ⟨.ok r, reps, true⟩
      | .error e => ⟨.error e, [], true⟩
  else
    ⟨.ok none, [simpleNon200Msg "Gemini" net], true⟩

/-- Body of `call_anthropic_api` (source lines 267–382). -/
def call_anthropic_api (props : AIGenProperties) (net : HttpResponse) : ApiCallResult :=
  if pyStrip props.api_key = "" then
    ⟨.ok none, ["Please enter your Anthropic API key"], false⟩
  else if net.status = 200 then
    match net.body with
    | none => ⟨.error "Expecting value: line 1 column 1 (char 0)", [], true⟩
    | some result =>
      match anthropic200 result with
      | .ok (r, reps) => ⟨.ok r, reps, true⟩
      | .error e => ⟨.error e, [], true⟩
  else
    ⟨.ok none, [anthropicNon200Msg net], true⟩

/-- Body of `call_openai_api` (source lines 384–501). -/
def call_openai_api (props : AIGenProperties) (net : HttpResponse) : ApiCallResult :=
  if pyStrip props.api_key = "" then
    ⟨.ok none, ["Please enter your OpenAI API key"], false⟩
  else if net.status = 200 then
    match net.body with
    | none => ⟨.error "Expecting value: line 1 column 1 (char 0)", [], true⟩
    | some result =>
      match chat200 "OpenAI" result with
      | .ok (r, reps) => ⟨.ok r, reps, true⟩
      | .error e => ⟨.error e, [], true⟩
  else
    ⟨.ok none, [openaiNon200Msg net], true⟩

/-- Body of `call_groq_api` (source lines 503–611). -/
def call_groq_api (props : AIGenProperties) (net : HttpResponse) : ApiCallResult :=
  if pyStrip props.api_key = "" then
    ⟨.ok none, ["Please enter your Groq API key"], false⟩
  else if net.status = 200 then
    match net.body with
    | none => ⟨.error "Expecting value: line 1 column 1 (char 0)", [], true⟩
    | some result =>
      match chat200 "Groq" result with
      | .ok (r, reps) => ⟨.ok r, reps, true⟩
      | .error e => ⟨.error e, [], true⟩
  else
    ⟨.ok none, [simpleNon200Msg "Groq" net], true⟩

/-- Body of `call_custom_api` (source lines 613–651).  There is no
credential guard: the request is always issued (the optional
`Authorization` header does not affect the observable model).  A 200
body that fails to parse is caught by the method own
`except json.JSONDecodeError`; `result.get("script", "")` on a non-dict
raises an `AttributeError` that escapes the method (it is neither a
`RequestException` nor a `JSONDecodeError`). -/
def call_custom_api (_props : AIGenProperties) (net : HttpResponse) : ApiCallResult :=
  if net.status = 200 then
    match net.body with
    | none => ⟨.ok none, ["Invalid JSON response from API"], true⟩
    | some result =>
      match pyDictGet result "script" (.str "") with
      | .ok v => ⟨.ok (some v), [], true⟩
      | .error e => ⟨.error e, [], true⟩
  else
    ⟨.ok none, ["API Error: " ++ toString net.status], true⟩

/-- Dispatch of `call_api` (source lines 144–159) on the provider. -/
def providerCall (p : ApiProvider) (props : AIGenProperties) (net : HttpResponse) :
    ApiCallResult :=
  match p with
  | .GEMINI => call_gemini_api props net
  | .GROQ => call_groq_api props net
  | .OPENAI => call_openai_api props net
  | .ANTHROPIC => call_anthropic_api props net
  | .CUSTOM => call_custom_api props net

/-- The whole of `call_api` (source lines 144–159): dispatch plus the
catch-all `except Exception` that converts an escaping exception into an
extra `"API Error: …"` report and a `None` return. -/
def call_api (props : AIGenProperties) (net : HttpResponse) :
    Option Json × List String × Bool :=
  let r := providerCall props.api_provider props net
  match r.result with
  | .ok v => (v, r.reports, r.httpIssued)
  | .error e => (none, r.reports ++ ["API Error: " ++ e], r.httpIssued)

end AIGEN_OT_generate

/-! ### Scene model and script execution -/

/-- The slice of Blender scene state the add-on touches: the objects of
the scene and the collections linked under the scene collection. -/
structure Scene where
  objects : List String
  collections : List String
deriving DecidableEq

/-- Abstract effect steps of a generated script.  The host `exec` of
untrusted script text is modelled by an environment-supplied
interpretation of the text into such steps; a `raiseErr` step is the
script raising an exception at that point, which aborts the remaining
steps. -/
inductive ScriptStep where
  | addObject (name : String)
  | removeAllObjects
  | raiseErr (msg : String)
deriving DecidableEq

/-- Run the steps of a script against a scene, stopping at the first
raised exception and returning its message alongside the state reached
so far (Python `exec` performs no rollback). -/
def runScript : List ScriptStep → Scene → Scene × Option String
  | [], s => (s, none)
  | .addObject n :: rest, s =>
    runScript rest { s with objects := s.objects ++ [n] }
  | .removeAllObjects :: rest, s =>
    runScript rest { s with objects := [] }
  | .raiseErr m :: _, s => (s, some m)

/-- Report severity levels used through `self.report`. -/
inductive ReportLevel where
  | INFO
  | WARNING
  | ERROR
deriving DecidableEq

/-- One `self.report` call. -/
structure Report where
  level : ReportLevel
  msg : String
deriving DecidableEq

/-- Operator return values. -/
inductive OpStatus where
  | FINISHED
  | CANCELLED
deriving DecidableEq

namespace AIGEN_OT_generate

/-- `clear_scene` (source lines 691–694): select all objects and delete
them. -/
def clear_scene (s : Scene) : Scene :=
  { s with objects := [] }

/-- Name of the output collection (source line 663):
`f"AI_Generated_{props.prompt[:20]}"`. -/
def collectionName (props : AIGenProperties) : String :=
  "AI_Generated_" ++ pyTake props.prompt 20

/-- `execute_script` (source lines 653–689), with the script behaviour
given as abstract steps: optionally clear the scene, create and link the
output collection, run the script, and catch any exception it raises,
reporting it as a script-execution error.  No rollback is attempted: the
scene reached at the time of the exception is kept. -/
def execute_script (prog : List ScriptStep) (props : AIGenProperties) (s : Scene) :
    Scene × List String :=
  let s1 := if props.auto_clear then clear_scene s else s
  let s2 := { s1 with collections := s1.collections ++ [collectionName props] }
  match runScript prog s2 with
  | (s3, none) => (s3, [])
  | (s3, some m) => (s3, ["Script execution error: " ++ m])

/-- Reports every non-trivial run of the operator `execute` starts
with: the progress info line of source line 116 followed by the `ERROR`
reports issued inside `call_api`.  Split out of `execute` only for
readability of the statements below. -/
def reportsPrefix (props : AIGenProperties) (net : HttpResponse) : List Report :=
  ⟨.INFO, "Generating model for: " ++ props.prompt⟩
    :: (call_api props net).2.1.map (fun m => Report.mk .ERROR m)

/-- The operator `execute` (source lines 108–142).  `sem` is the
environment interpretation of script text under `exec` (the Blender
Python semantics, outside this repository).  Returns the operator
status, the final scene, and all `self.report` calls in order.

Python control flow notes: `if script_code and script_code.strip():`
first tests truthiness of the returned value, then calls `.strip()` on
it, which raises `AttributeError` (caught by the surrounding
`except Exception`) when a custom endpoint returned a truthy non-string
under `"script"`; errors raised inside `execute_script` are consumed
there, so the success report and `{FINISHED}` follow regardless. -/
def execute (props : AIGenProperties) (net : HttpResponse)
    (sem : String → List ScriptStep) (s : Scene) :
    OpStatus × Scene × List Report :=
  if pyStrip props.prompt = "" then
    (.CANCELLED, s, [⟨.ERROR, "Please enter a prompt"⟩])
  else
    match (call_api props net).1 with
    | none =>
      (.CANCELLED, s,
        reportsPrefix props net ++ [⟨.ERROR, "Failed to get valid script from API"⟩])
    | some j =>
      if pyTruthy j then
        match j with
        | .str sc =>
          if pyStrip sc = "" then
            (.CANCELLED, s,
              reportsPrefix props net ++ [⟨.ERROR, "Failed to get valid script from API"⟩])
          else
            (.FINISHED, (execute_script (sem sc) props s).1,
              reportsPrefix props net
                ++ ((execute_script (sem sc) props s).2.map (fun m => Report.mk .ERROR m))
                ++ [⟨.INFO, "Model generated successfully!"⟩])
        | _ =>
          (.CANCELLED, s,
            reportsPrefix props net ++ [⟨.ERROR, "Error: \x27" ++ pyTypeName j
              ++ "\x27 object has no attribute \x27strip\x27"⟩])
      else
        (.CANCELLED, s,
          reportsPrefix props net ++ [⟨.ERROR, "Failed to get valid script from API"⟩])

end AIGEN_OT_generate

end AIModelGenerator

namespace AIModelGenerator

open AIGEN_OT_generate

/-! ### Fixtures used by concrete theorems and witnesses -/

/-- The missing-credential report of each credentialed provider (the
CUSTOM entry is unused: that provider has no credential guard). -/
def missingKeyReport : ApiProvider → String
  | .GEMINI => "Please enter your Gemini API key"
  | .GROQ => "Please enter your Groq API key"
  | .OPENAI => "Please enter your OpenAI API key"
  | .ANTHROPIC => "Please enter your Anthropic API key"
  | .CUSTOM => ""

/-- Settings exactly as registered: Gemini provider, blank API key. -/
def defaultProps : AIGenProperties := {}

/-- Default settings with a non-blank API key. -/
def keyProps : AIGenProperties := { api_key := "k" }

/-- Default settings switched to the custom provider. -/
def customProps : AIGenProperties := { api_provider := .CUSTOM }

/-- Custom-provider settings with scene clearing off. -/
def raiseProps : AIGenProperties := { api_provider := .CUSTOM, auto_clear := false }

/-- The Gemini body of the specification example: one candidate whose
single part carries a python-fenced `X`. -/
def geminiExampleBody : Json :=
  .obj [("candidates", .arr [.obj [("content",
    .obj [("parts", .arr [.obj [("text", .str "```python\nX\n```")]])])]])]

/-- A custom-endpoint 200 response carrying a script. -/
def raiseNet : HttpResponse := ⟨200, some (.obj [("script", .str "import bpy")])⟩

/-- Script interpretation with no effect. -/
def semEmpty : String → List ScriptStep := fun _ => []

/-- Script interpretation that raises immediately. -/
def raiseSem : String → List ScriptStep := fun _ => [.raiseErr "boom"]

/-- A scene holding one pre-existing object. -/
def sceneCube : Scene := ⟨["cube"], []⟩

/-! ### Lemmas about the string primitives -/

theorem isPrefixOf_nil_eq (a : List Char) (h : a.isPrefixOf ([] : List Char) = true) :
    a = [] := by
  cases a with
  | nil => rfl
  | cons x xs => simp [List.isPrefixOf] at h

theorem isPrefixOf_append (sep x t : List Char) (h : sep.isPrefixOf x = true) :
    sep.isPrefixOf (x ++ t) = true := by
  induction sep generalizing x with
  | nil => simp [List.isPrefixOf]
  | cons a as ih =>
    cases x with
    | nil => simp [List.isPrefixOf] at h
    | cons b bs =>
      simp only [List.isPrefixOf, Bool.and_eq_true] at h
      simp only [List.cons_append, List.isPrefixOf, Bool.and_eq_true]
      exact ⟨h.1, ih bs h.2⟩

theorem isPrefixOf_trans (a b c : List Char) (h₁ : a.isPrefixOf b = true)
    (h₂ : b.isPrefixOf c = true) : a.isPrefixOf c = true := by
  induction a generalizing b c with
  | nil => simp [List.isPrefixOf]
  | cons x xs ih =>
    cases b with
    | nil => simp [List.isPrefixOf] at h₁
    | cons y ys =>
      cases c with
      | nil => simp [List.isPrefixOf] at h₂
      | cons z zs =>
        simp only [List.isPrefixOf, Bool.and_eq_true, beq_iff_eq] at h₁ h₂ ⊢
        exact ⟨h₁.1.trans h₂.1, ih ys zs h₁.2 h₂.2⟩

theorem takeUntil_append_eq (sep l : List Char) :
    ∃ t, takeUntil sep l ++ t = l := by
  induction l with
  | nil => exact ⟨[], rfl⟩
  | cons c cs ih =>
    rw [takeUntil]
    split
    · exact ⟨c :: cs, rfl⟩
    · obtain ⟨t, ht⟩ := ih
      exact ⟨t, by rw [List.cons_append, ht]⟩

theorem takeUntil_idem (sep l : List Char) :
    takeUntil sep (takeUntil sep l) = takeUntil sep l := by
  induction l with
  | nil => simp [takeUntil]
  | cons c cs ih =>
    rw [takeUntil]
    split
    · simp [takeUntil]
    · rename_i hnp
      rw [takeUntil, if_neg, ih]
      intro hp
      obtain ⟨t, ht⟩ := takeUntil_append_eq sep cs
      have h2 := isPrefixOf_append sep (c :: takeUntil sep cs) t hp
      rw [List.cons_append, ht] at h2
      exact hnp h2

theorem takeUntil_of_hasInfix_eq_false (sep l : List Char) (h : hasInfix sep l = false) :
    takeUntil sep l = l := by
  induction l with
  | nil => simp [takeUntil]
  | cons c cs ih =>
    rw [hasInfix, Bool.or_eq_false_iff] at h
    rw [takeUntil, if_neg (by simp [h.1]), ih h.2]

theorem hasInfix_mono (sep sep' l : List Char) (hp : sep'.isPrefixOf sep = true)
    (h : hasInfix sep l = true) : hasInfix sep' l = true := by
  induction l with
  | nil =>
    rw [hasInfix, List.isEmpty_iff] at h ⊢
    exact isPrefixOf_nil_eq sep' (h ▸ hp)
  | cons c cs ih =>
    rw [hasInfix, Bool.or_eq_true] at h ⊢
    rcases h with h | h
    · exact Or.inl (isPrefixOf_trans sep' sep (c :: cs) hp h)
    · exact Or.inr (ih h)

theorem dropAfter?_of_isPrefixOf (sep l : List Char) (hne : sep ≠ [])
    (h : sep.isPrefixOf l = true) : dropAfter? sep l = some (l.drop sep.length) := by
  cases l with
  | nil => exact absurd (isPrefixOf_nil_eq sep h) hne
  | cons c cs => rw [dropAfter?, if_pos h]

/-- Branch equation of `cleanContent` for a text opening with the tagged
marker: the split-then-index composite equals a double `takeUntil` on
the remainder. -/
theorem cleanContent_py (content : String) (h : pyStartsWith content "```python" = true) :
    cleanContent content =
      pyStrip (String.mk (takeUntil "```".data
        (takeUntil "```python".data (content.data.drop 9)))) := by
  have hd : dropAfter? "```python".data content.data = some (content.data.drop 9) :=
    dropAfter?_of_isPrefixOf "```python".data content.data (by decide) h
  unfold cleanContent splitSnd? splitHead
  rw [if_pos h, hd]
  rfl

/-- Branch equation of `cleanContent` for a text opening with the plain
marker only. -/
theorem cleanContent_tick (content : String)
    (h9 : pyStartsWith content "```python" = false)
    (h3 : pyStartsWith content "```" = true) :
    cleanContent content =
      pyStrip (String.mk (takeUntil "```".data (content.data.drop 3))) := by
  have hd : dropAfter? "```".data content.data = some (content.data.drop 3) :=
    dropAfter?_of_isPrefixOf "```".data content.data (by decide) h3
  unfold cleanContent splitSnd? splitHead
  rw [if_neg (by simp [h9]), if_pos h3, hd]
  show pyStrip (String.mk (takeUntil "```".data
    (takeUntil "```".data (content.data.drop 3)))) = _
  rw [takeUntil_idem]

/-- Branch equation of `cleanContent` for a text with no opening fence. -/
theorem cleanContent_nofence (content : String)
    (h9 : pyStartsWith content "```python" = false)
    (h3 : pyStartsWith content "```" = false) :
    cleanContent content = pyStrip content := by
  unfold cleanContent
  rw [if_neg (by simp [h9]), if_neg (by simp [h3])]

/-- Running adds-then-raise steps keeps every object added before the
raise and stops with the raised message. -/
theorem runScript_addObjects (pre : List String) (m : String) (rest : List ScriptStep)
    (s : Scene) :
    runScript (pre.map .addObject ++ .raiseErr m :: rest) s =
      ({ s with objects := s.objects ++ pre }, some m) := by
  induction pre generalizing s with
  | nil => simp [runScript]
  | cons a as ih => simp [runScript, ih]

end AIModelGenerator

namespace AIModelGenerator

open AIGEN_OT_generate

/-! ### Claim theorems -/

/-- C1: for every provider that requires a credential (GEMINI, GROQ,
OPENAI, ANTHROPIC), a generate request whose API key is empty or
whitespace-only is rejected with the missing-credential error and no
HTTP request is issued (the outcome is the same for every possible
network response, and the request flag stays false). -/
theorem missing_key_rejected_before_request (p : ApiProvider)
    (props : AIGenProperties) (net : HttpResponse)
    (hp : p ≠ .CUSTOM) (hk : pyStrip props.api_key = "") :
    providerCall p props net = ⟨.ok none, [missingKeyReport p], false⟩ := by
  cases p
  · simp [providerCall, call_gemini_api, hk, missingKeyReport]
  · simp [providerCall, call_groq_api, hk, missingKeyReport]
  · simp [providerCall, call_openai_api, hk, missingKeyReport]
  · simp [providerCall, call_anthropic_api, hk, missingKeyReport]
  · exact absurd rfl hp

/-- Witness for C1 at the GEMINI provider with the registered defaults
(blank key). -/
theorem missing_key_rejected_before_request_witness :
    pyStrip defaultProps.api_key = "" ∧
    providerCall .GEMINI defaultProps ⟨200, some (.obj [])⟩ =
      ⟨.ok none, ["Please enter your Gemini API key"], false⟩ :=
  ⟨rfl, missing_key_rejected_before_request .GEMINI defaultProps
    ⟨200, some (.obj [])⟩ (by decide) rfl⟩

/-- C2 counterexample: the postprocessing of the source does not always
return the substring between the first pair of fence markers.  On the
text built of a tagged opener immediately followed by one backtick and
another tagged opener, the spec reading yields the empty string (the
closing fence starts right after the opener) while the code yields a
single backtick. -/
theorem spec_postprocess_counterexample :
    cleanContent "```python````python" ≠ cleanContentSpec "```python````python" := by
  decide

/-- C2 amended: the postprocessing equals the amended extraction: texts
opening with the plain fence or with no fence behave as the spec says
(substring between the first pair of markers, or the text itself,
stripped); texts opening with the tagged marker have the remainder first
truncated at its next occurrence of the tagged marker and then at the
first plain fence, stripped. -/
theorem postprocess_matches_amended_extraction (content : String) :
    cleanContent content = cleanContentAmended content := by
  unfold cleanContentAmended
  by_cases h9 : pyStartsWith content "```python" = true
  · rw [cleanContent_py content h9, if_pos h9]
  · have h9' : pyStartsWith content "```python" = false := by simpa using h9
    by_cases h3 : pyStartsWith content "```" = true
    · rw [cleanContent_tick content h9' h3, if_neg (by simp [h9']), if_pos h3]
    · have h3' : pyStartsWith content "```" = false := by simpa using h3
      rw [cleanContent_nofence content h9' h3', if_neg (by simp [h9']),
        if_neg (by simp [h3'])]

/-- C3: for every provider, whenever the HTTP response status is not
200, the provider call returns None (never a text payload) and reports
an error. -/
theorem non200_yields_failure (p : ApiProvider) (props : AIGenProperties)
    (net : HttpResponse) (h : net.status ≠ 200) :
    (providerCall p props net).result = .ok none ∧
    (providerCall p props net).reports ≠ [] := by
  cases p <;> by_cases hk : pyStrip props.api_key = "" <;>
    simp [providerCall, call_gemini_api, call_groq_api, call_openai_api,
      call_anthropic_api, call_custom_api, hk, h]

/-- Witness for C3 at the CUSTOM provider and a 500 response. -/
theorem non200_yields_failure_witness :
    (HttpResponse.mk 500 none).status ≠ 200 ∧
    ((providerCall .CUSTOM defaultProps ⟨500, none⟩).result = .ok none ∧
     (providerCall .CUSTOM defaultProps ⟨500, none⟩).reports ≠ []) :=
  ⟨by decide, non200_yields_failure .CUSTOM defaultProps ⟨500, none⟩ (by decide)⟩

/-- C4: a generated script that raises partway through leaves every
object it already created in the scene (no rollback: the final scene is
exactly the cleared-or-kept base plus the new collection plus the
objects added before the raise) and the error is caught and reported as
a script-execution error. -/
theorem script_exception_caught_no_rollback (props : AIGenProperties) (s : Scene)
    (pre : List String) (m : String) (rest : List ScriptStep) :
    execute_script (pre.map .addObject ++ .raiseErr m :: rest) props s =
      ({ objects := (if props.auto_clear then clear_scene s else s).objects ++ pre,
         collections := (if props.auto_clear then clear_scene s else s).collections
           ++ [collectionName props] },
       ["Script execution error: " ++ m]) := by
  simp only [execute_script, runScript_addObjects]

/-- C5: for the Gemini provider, a 200 response whose single candidate
part carries a python-fenced X yields the extracted text X. -/
theorem gemini_fence_example_extracts_X :
    call_gemini_api keyProps ⟨200, some geminiExampleBody⟩ =
      ⟨.ok (some (.str "X")), [], true⟩ := rfl

/-- C6 counterexample: for the CUSTOM provider a 200 response whose JSON
lacks the expected script key is not surfaced as a response-shape error:
the call succeeds with the empty string and reports nothing, and the
generate action only reports the generic failed-to-get-script message
(the same message an empty well-shaped script would produce). -/
theorem custom_shape_error_counterexample :
    call_custom_api customProps ⟨200, some (.obj [])⟩ =
      ⟨.ok (some (.str "")), [], true⟩ ∧
    (execute customProps ⟨200, some (.obj [])⟩ semEmpty sceneCube).2.2 =
      [⟨.INFO, "Generating model for: Create a simple cube"⟩,
       ⟨.ERROR, "Failed to get valid script from API"⟩] :=
  ⟨rfl, rfl⟩

/-- Extraction lemma: an OpenAI-shaped 200 body whose choices key is
absent (in the pyIn sense) or maps to an empty list yields the
no-content message. -/
theorem chat200_missing_choices (name : String) (j : Json)
    (h : pyIn j "choices" = .ok false ∨
      (pyIn j "choices" = .ok true ∧ pyGetKey j "choices" = .ok (.arr []))) :
    chat200 name j = .ok (none, ["No content generated by " ++ name]) := by
  rcases h with h | ⟨h1, h2⟩
  · unfold chat200; rw [h]
  · unfold chat200; rw [h1, h2]; rfl

/-- Extraction lemma: an OpenAI-shaped 200 body with a nonempty choices
list whose first choice lacks the message key, or whose message lacks
the content key, yields the invalid-structure message. -/
theorem chat200_bad_choice (name : String) (j c : Json) (cs : List Json)
    (h1 : pyIn j "choices" = .ok true)
    (h2 : pyGetKey j "choices" = .ok (.arr (c :: cs)))
    (h3 : pyIn c "message" = .ok false ∨
      (pyIn c "message" = .ok true ∧
        ∃ mj, pyGetKey c "message" = .ok mj ∧ pyIn mj "content" = .ok false)) :
    chat200 name j = .ok (none, ["Invalid response structure from " ++ name]) := by
  rcases h3 with h3 | ⟨h3a, mj, h3b, h3c⟩
  · unfold chat200
    rw [h1, h2]
    simp [pyLen, pyIdx0, h3]
  · unfold chat200
    rw [h1, h2]
    simp [pyLen, pyIdx0, h3a, h3b, h3c]

/-- Extraction lemma: a Gemini 200 body whose candidates key is absent
or maps to an empty list yields the no-content message. -/
theorem gemini200_no_candidates (j : Json)
    (h : pyIn j "candidates" = .ok false ∨
      (pyIn j "candidates" = .ok true ∧ pyGetKey j "candidates" = .ok (.arr []))) :
    gemini200 j = .ok (none, ["No content generated by Gemini"]) := by
  rcases h with h | ⟨h1, h2⟩
  · unfold gemini200; rw [h]
  · unfold gemini200; rw [h1, h2]; rfl

/-- Extraction lemma: a Gemini 200 body with a nonempty candidates list
whose first candidate lacks the content key, or whose content lacks the
parts key, yields the invalid-structure message. -/
theorem gemini200_bad_candidate (j c : Json) (cs : List Json)
    (h1 : pyIn j "candidates" = .ok true)
    (h2 : pyGetKey j "candidates" = .ok (.arr (c :: cs)))
    (h3 : pyIn c "content" = .ok false ∨
      (pyIn c "content" = .ok true ∧
        ∃ cj, pyGetKey c "content" = .ok cj ∧ pyIn cj "parts" = .ok false)) :
    gemini200 j = .ok (none, ["Invalid response structure from Gemini"]) := by
  rcases h3 with h3 | ⟨h3a, cj, h3b, h3c⟩
  · unfold gemini200
    rw [h1, h2]
    simp [pyLen, pyIdx0, h3]
  · unfold gemini200
    rw [h1, h2]
    simp [pyLen, pyIdx0, h3a, h3b, h3c]

/-- Extraction lemma: an Anthropic 200 body whose content key is absent
or maps to an empty list yields the no-content message. -/
theorem anthropic200_no_content (j : Json)
    (h : pyIn j "content" = .ok false ∨
      (pyIn j "content" = .ok true ∧ pyGetKey j "content" = .ok (.arr []))) :
    anthropic200 j = .ok (none, ["No content generated by Anthropic"]) := by
  rcases h with h | ⟨h1, h2⟩
  · unfold anthropic200; rw [h]
  · unfold anthropic200; rw [h1, h2]; rfl

/-- Extraction lemma: an Anthropic 200 body with a nonempty content list
whose first block lacks the text key yields the invalid-structure
message. -/
theorem anthropic200_bad_block (j b : Json) (bs : List Json)
    (h1 : pyIn j "content" = .ok true)
    (h2 : pyGetKey j "content" = .ok (.arr (b :: bs)))
    (h3 : pyIn b "text" = .ok false) :
    anthropic200 j = .ok (none, ["Invalid response structure from Anthropic"]) := by
  unfold anthropic200
  rw [h1, h2]
  simp [pyLen, pyIdx0, h3]

/-- Lifting lemma: with a non-blank key and a parsed 200 body, the
Gemini call returns whatever the extraction returns, with one request
issued. -/
theorem call_gemini_api_ok (props : AIGenProperties) (net : HttpResponse) (j : Json)
    (r : Option Json) (reps : List String)
    (hk : pyStrip props.api_key ≠ "") (hs : net.status = 200) (hb : net.body = some j)
    (h : gemini200 j = .ok (r, reps)) :
    call_gemini_api props net = ⟨.ok r, reps, true⟩ := by
  unfold call_gemini_api
  rw [if_neg hk, if_pos hs, hb]
  show (match gemini200 j with
    | .ok (r, reps) => ApiCallResult.mk (.ok r) reps true
    | .error e => ApiCallResult.mk (.error e) [] true) = _
  rw [h]

/-- Lifting lemma for the Groq call. -/
theorem call_groq_api_ok (props : AIGenProperties) (net : HttpResponse) (j : Json)
    (r : Option Json) (reps : List String)
    (hk : pyStrip props.api_key ≠ "") (hs : net.status = 200) (hb : net.body = some j)
    (h : chat200 "Groq" j = .ok (r, reps)) :
    call_groq_api props net = ⟨.ok r, reps, true⟩ := by
  unfold call_groq_api
  rw [if_neg hk, if_pos hs, hb]
  show (match chat200 "Groq" j with
    | .ok (r, reps) => ApiCallResult.mk (.ok r) reps true
    | .error e => ApiCallResult.mk (.error e) [] true) = _
  rw [h]

/-- Lifting lemma for the OpenAI call. -/
theorem call_openai_api_ok (props : AIGenProperties) (net : HttpResponse) (j : Json)
    (r : Option Json) (reps : List String)
    (hk : pyStrip props.api_key ≠ "") (hs : net.status = 200) (hb : net.body = some j)
    (h : chat200 "OpenAI" j = .ok (r, reps)) :
    call_openai_api props net = ⟨.ok r, reps, true⟩ := by
  unfold call_openai_api
  rw [if_neg hk, if_pos hs, hb]
  show (match chat200 "OpenAI" j with
    | .ok (r, reps) => ApiCallResult.mk (.ok r) reps true
    | .error e => ApiCallResult.mk (.error e) [] true) = _
  rw [h]

/-- Lifting lemma for the Anthropic call. -/
theorem call_anthropic_api_ok (props : AIGenProperties) (net : HttpResponse) (j : Json)
    (r : Option Json) (reps : List String)
    (hk : pyStrip props.api_key ≠ "") (hs : net.status = 200) (hb : net.body = some j)
    (h : anthropic200 j = .ok (r, reps)) :
    call_anthropic_api props net = ⟨.ok r, reps, true⟩ := by
  unfold call_anthropic_api
  rw [if_neg hk, if_pos hs, hb]
  show (match anthropic200 j with
    | .ok (r, reps) => ApiCallResult.mk (.ok r) reps true
    | .error e => ApiCallResult.mk (.error e) [] true) = _
  rw [h]

/-- Lifting lemma: a custom-endpoint 200 response whose dict body lacks
the script key returns the empty-string default with no report. -/
theorem call_custom_missing_script (props : AIGenProperties) (net : HttpResponse)
    (fields : List (String × Json))
    (hs : net.status = 200) (hb : net.body = some (.obj fields))
    (h : fields.find? (fun f => f.1 = "script") = none) :
    call_custom_api props net = ⟨.ok (some (.str "")), [], true⟩ := by
  unfold call_custom_api
  rw [if_pos hs, hb]
  show (match pyDictGet (Json.obj fields) "script" (.str "") with
    | .ok v => ApiCallResult.mk (.ok (some v)) [] true
    | .error e => ApiCallResult.mk (.error e) [] true) = _
  simp only [pyDictGet]
  rw [h]

/-- C6 amended: for every 200 response of the four named providers whose
JSON lacks the checked keys, a distinct provider-specific message is
surfaced (no content generated when the top-level key is absent or its
list empty, invalid response structure when the checked nested keys are
absent) with no script returned and a single request issued (no retry);
for the CUSTOM provider, every 200 response whose dict body lacks the
script key yields the empty string with no report at all. -/
theorem shape_error_surfaced_amended (props : AIGenProperties)
    (hk : pyStrip props.api_key ≠ "") :
    (∀ net j, net.status = 200 → net.body = some j →
      (pyIn j "candidates" = .ok false ∨
        (pyIn j "candidates" = .ok true ∧ pyGetKey j "candidates" = .ok (.arr []))) →
      call_gemini_api props net =
        ⟨.ok none, ["No content generated by Gemini"], true⟩) ∧
    (∀ net j c cs, net.status = 200 → net.body = some j →
      pyIn j "candidates" = .ok true →
      pyGetKey j "candidates" = .ok (.arr (c :: cs)) →
      (pyIn c "content" = .ok false ∨
        (pyIn c "content" = .ok true ∧
          ∃ cj, pyGetKey c "content" = .ok cj ∧ pyIn cj "parts" = .ok false)) →
      call_gemini_api props net =
        ⟨.ok none, ["Invalid response structure from Gemini"], true⟩) ∧
    (∀ net j, net.status = 200 → net.body = some j →
      (pyIn j "choices" = .ok false ∨
        (pyIn j "choices" = .ok true ∧ pyGetKey j "choices" = .ok (.arr []))) →
      call_groq_api props net = ⟨.ok none, ["No content generated by Groq"], true⟩ ∧
      call_openai_api props net = ⟨.ok none, ["No content generated by OpenAI"], true⟩) ∧
    (∀ net j c cs, net.status = 200 → net.body = some j →
      pyIn j "choices" = .ok true →
      pyGetKey j "choices" = .ok (.arr (c :: cs)) →
      (pyIn c "message" = .ok false ∨
        (pyIn c "message" = .ok true ∧
          ∃ mj, pyGetKey c "message" = .ok mj ∧ pyIn mj "content" = .ok false)) →
      call_groq_api props net =
        ⟨.ok none, ["Invalid response structure from Groq"], true⟩ ∧
      call_openai_api props net =
        ⟨.ok none, ["Invalid response structure from OpenAI"], true⟩) ∧
    (∀ net j, net.status = 200 → net.body = some j →
      (pyIn j "content" = .ok false ∨
        (pyIn j "content" = .ok true ∧ pyGetKey j "content" = .ok (.arr []))) →
      call_anthropic_api props net =
        ⟨.ok none, ["No content generated by Anthropic"], true⟩) ∧
    (∀ net j b bs, net.status = 200 → net.body = some j →
      pyIn j "content" = .ok true →
      pyGetKey j "content" = .ok (.arr (b :: bs)) →
      pyIn b "text" = .ok false →
      call_anthropic_api props net =
        ⟨.ok none, ["Invalid response structure from Anthropic"], true⟩) ∧
    (∀ net fields, net.status = 200 → net.body = some (.obj fields) →
      fields.find? (fun f => f.1 = "script") = none →
      call_custom_api props net = ⟨.ok (some (.str "")), [], true⟩) := by
  refine ⟨?_, ?_, ?_, ?_, ?_, ?_, ?_⟩
  · intro net j hs hb h
    exact call_gemini_api_ok props net j none _ hk hs hb (gemini200_no_candidates j h)
  · intro net j c cs hs hb h1 h2 h3
    exact call_gemini_api_ok props net j none _ hk hs hb
      (gemini200_bad_candidate j c cs h1 h2 h3)
  · intro net j hs hb h
    exact ⟨call_groq_api_ok props net j none _ hk hs hb
        (chat200_missing_choices "Groq" j h),
      call_openai_api_ok props net j none _ hk hs hb
        (chat200_missing_choices "OpenAI" j h)⟩
  · intro net j c cs hs hb h1 h2 h3
    exact ⟨call_groq_api_ok props net j none _ hk hs hb
        (chat200_bad_choice "Groq" j c cs h1 h2 h3),
      call_openai_api_ok props net j none _ hk hs hb
        (chat200_bad_choice "OpenAI" j c cs h1 h2 h3)⟩
  · intro net j hs hb h
    exact call_anthropic_api_ok props net j none _ hk hs hb (anthropic200_no_content j h)
  · intro net j b bs hs hb h1 h2 h3
    exact call_anthropic_api_ok props net j none _ hk hs hb
      (anthropic200_bad_block j b bs h1 h2 h3)
  · intro net fields hs hb h
    exact call_custom_missing_script props net fields hs hb h

/-- Witness for C6 amended: the Gemini empty-candidates-list case at a
non-blank key. -/
theorem shape_error_surfaced_amended_witness :
    pyStrip keyProps.api_key ≠ "" ∧
    call_gemini_api keyProps ⟨200, some (.obj [("candidates", .arr [])])⟩ =
      ⟨.ok none, ["No content generated by Gemini"], true⟩ :=
  ⟨by decide, (shape_error_surfaced_amended keyProps (by decide)).1
    ⟨200, some (.obj [("candidates", .arr [])])⟩ (.obj [("candidates", .arr [])])
    rfl rfl (Or.inr ⟨rfl, rfl⟩)⟩

/-- C7: for the OpenAI provider, a 200 response whose JSON lacks the
choices key, or carries an empty choices list, yields the no-content
message and returns None, without raising an uncaught exception (the
outcome is an ok value, not an error). -/
theorem openai_missing_choices_safe (props : AIGenProperties) (net : HttpResponse)
    (j : Json) (hk : pyStrip props.api_key ≠ "") (hs : net.status = 200)
    (hb : net.body = some j)
    (hshape : pyIn j "choices" = .ok false ∨
      (pyIn j "choices" = .ok true ∧ pyGetKey j "choices" = .ok (.arr []))) :
    call_openai_api props net = ⟨.ok none, ["No content generated by OpenAI"], true⟩ := by
  unfold call_openai_api
  rw [if_neg hk, if_pos hs, hb]
  show (match chat200 "OpenAI" j with
    | .ok (r, reps) => ApiCallResult.mk (.ok r) reps true
    | .error e => ApiCallResult.mk (.error e) [] true) = _
  rcases hshape with h | ⟨h1, h2⟩
  · unfold chat200
    rw [h]
    rfl
  · unfold chat200
    rw [h1, h2]
    rfl

/-- Witness for C7 at an empty-object 200 body. -/
theorem openai_missing_choices_safe_witness :
    pyStrip keyProps.api_key ≠ "" ∧
    call_openai_api keyProps ⟨200, some (.obj [])⟩ =
      ⟨.ok none, ["No content generated by OpenAI"], true⟩ :=
  ⟨by decide, openai_missing_choices_safe keyProps ⟨200, some (.obj [])⟩ (.obj [])
    (by decide) rfl rfl (Or.inl rfl)⟩

/-- C8: if the provider call fails (returns None) or returns a
whitespace-only script, the generate action leaves the scene completely
unchanged, even with scene clearing enabled: clearing and collection
creation happen only inside script execution, which is never reached. -/
theorem failed_call_leaves_scene_unchanged (props : AIGenProperties)
    (net : HttpResponse) (sem : String → List ScriptStep) (s : Scene)
    (h : (call_api props net).1 = none ∨
      ∃ sc, (call_api props net).1 = some (.str sc) ∧ pyStrip sc = "") :
    (execute props net sem s).2.1 = s := by
  unfold execute
  by_cases hp : pyStrip props.prompt = ""
  · rw [if_pos hp]
  · rw [if_neg hp]
    rcases h with h | ⟨sc, hsc, hstrip⟩
    · rw [h]
    · rw [hsc]
      by_cases he : sc = ""
      · subst he; rfl
      · have htr : pyTruthy (.str sc) = true := by simp [pyTruthy, he]
        simp [htr, hstrip]

/-- Witness for C8: default Gemini settings with a blank key leave the
one-object scene untouched. -/
theorem failed_call_leaves_scene_unchanged_witness :
    (call_api defaultProps ⟨200, some (.obj [])⟩).1 = none ∧
    (execute defaultProps ⟨200, some (.obj [])⟩ semEmpty sceneCube).2.1 = sceneCube :=
  ⟨rfl, failed_call_leaves_scene_unchanged defaultProps ⟨200, some (.obj [])⟩
    semEmpty sceneCube (Or.inl rfl)⟩

/-- C9: when the generated script raises during execution, the generate
operator nevertheless reports model-generated-successfully and returns
FINISHED, because the execution error is consumed inside execute_script;
the script-execution-error report also appears. -/
theorem script_error_still_reports_success (props : AIGenProperties)
    (net : HttpResponse) (sem : String → List ScriptStep) (s : Scene) (sc : String)
    (pre : List String) (m : String) (rest : List ScriptStep)
    (hp : pyStrip props.prompt ≠ "")
    (hc : (call_api props net).1 = some (.str sc))
    (hsc : pyStrip sc ≠ "")
    (hsem : sem sc = pre.map .addObject ++ .raiseErr m :: rest) :
    (execute props net sem s).1 = .FINISHED ∧
    Report.mk .INFO "Model generated successfully!" ∈ (execute props net sem s).2.2 ∧
    Report.mk .ERROR ("Script execution error: " ++ m) ∈ (execute props net sem s).2.2 := by
  have hne : sc ≠ "" := by rintro rfl; exact hsc rfl
  have htr : pyTruthy (.str sc) = true := by simp [pyTruthy, hne]
  have hscript : (execute_script (sem sc) props s).2 =
      ["Script execution error: " ++ m] := by
    simp only [hsem, execute_script, runScript_addObjects]
  have hexec : execute props net sem s =
      (.FINISHED, (execute_script (sem sc) props s).1,
        reportsPrefix props net
          ++ ((execute_script (sem sc) props s).2.map (fun x => Report.mk .ERROR x))
          ++ [⟨.INFO, "Model generated successfully!"⟩]) := by
    unfold execute
    rw [if_neg hp, hc]
    simp [htr, hsc]
  rw [hexec, hscript]
  refine ⟨rfl, ?_, ?_⟩ <;> simp

/-- Witness for C9: a custom endpoint returns a script whose execution
raises immediately; the operator still finishes and reports success. -/
theorem script_error_still_reports_success_witness :
    pyStrip raiseProps.prompt ≠ "" ∧ pyStrip "import bpy" ≠ "" ∧
    ((execute raiseProps raiseNet raiseSem sceneCube).1 = .FINISHED ∧
     Report.mk .INFO "Model generated successfully!"
       ∈ (execute raiseProps raiseNet raiseSem sceneCube).2.2 ∧
     Report.mk .ERROR ("Script execution error: " ++ "boom")
       ∈ (execute raiseProps raiseNet raiseSem sceneCube).2.2) :=
  ⟨by decide, by decide,
    script_error_still_reports_success raiseProps raiseNet raiseSem sceneCube
      "import bpy" [] "boom" [] (by decide) rfl (by decide) rfl⟩

/-- C10: a response text that starts with a fence marker (tagged or
plain) but has no closing fence afterwards is not an error: the
postprocessing returns the entire remainder after the opening marker,
stripped of surrounding whitespace. -/
theorem unclosed_fence_keeps_remainder (content : String) :
    (pyStartsWith content "```python" = true →
      hasInfix "```".data (content.data.drop 9) = false →
      cleanContent content = pyStrip (String.mk (content.data.drop 9))) ∧
    (pyStartsWith content "```python" = false →
      pyStartsWith content "```" = true →
      hasInfix "```".data (content.data.drop 3) = false →
      cleanContent content = pyStrip (String.mk (content.data.drop 3))) := by
  constructor
  · intro h9 hni
    have h2 : hasInfix "```python".data (content.data.drop 9) = false := by
      by_contra hc
      rw [Bool.not_eq_false] at hc
      exact absurd (hasInfix_mono "```python".data "```".data _ (by decide) hc)
        (by simp [hni])
    rw [cleanContent_py content h9, takeUntil_of_hasInfix_eq_false _ _ h2,
      takeUntil_of_hasInfix_eq_false _ _ hni]
  · intro h9 h3 hni
    rw [cleanContent_tick content h9 h3, takeUntil_of_hasInfix_eq_false _ _ hni]

/-- Witness for C10 at a tagged opener with no closing fence. -/
theorem unclosed_fence_keeps_remainder_witness :
    pyStartsWith "```python\nno closing" "```python" = true ∧
    hasInfix "```".data ("```python\nno closing".data.drop 9) = false ∧
    cleanContent "```python\nno closing" =
      pyStrip (String.mk ("```python\nno closing".data.drop 9)) :=
  ⟨by decide, by decide,
    (unclosed_fence_keeps_remainder "```python\nno closing").1 (by decide) (by decide)⟩

end AIModelGenerator
